import Mathlib

/-!
Verification of the smsmts SMS-gateway client library (Go package `smsmts`,
file `mts.go`), shallowly embedded in Lean 4.

The package submits batches of SMS messages to a vendor REST API and polls
delivery statuses.  The network layer (HTTP transport, body reading, JSON
decoding) is standard-library code; we abstract it by an explicit outcome
value describing what the transport produced, and embed faithfully all logic
that runs after (and before) the network call:
  * `SendSMS` — reconciliation of gateway submit results into the caller's
    batch, followed by the top-level status check;
  * `GetSMSStatuses` — empty-input short-circuit, top-level code check, and
    flattening of the grouped per-recipient statuses;
  * `GetSMSStatus` — singleton wrapper with a not-found error;
  * `IsFinalStatus`, `IsDeliveredStatus`, `IsFailedStatus` — pure predicates.

Go `int` is modelled as `Int`.  `float64` (the `cost` field) is only ever
copied verbatim, never computed with, so it is modelled by `Rat`, an
executable carrier with decidable equality.  Fallible Go functions returning
`(T, error)` are modelled as `Except String T`; `SendSMS`, which mutates the
batch through a pointer, is modelled by explicit state passing: it returns
the new batch together with the error outcome.
-/

namespace Smsmts

/-- Status string constants from `mts.go`. -/
def StatusNotSent : String := "NotSent"

/-- Status string constant `Sent`. -/
def StatusSent : String := "Sent"

/-- Status string constant `Sending`. -/
def StatusSending : String := "Sending"

/-- Status string constant `Delivered`. -/
def StatusDelivered : String := "Delivered"

/-- Status string constant `NotDelivered`. -/
def StatusNotDelivered : String := "NotDelivered"

/-- Go struct `MessageStatus`: the status of a single message, as surfaced to callers. -/
structure MessageStatus where
  MessageID : String
  MsID : String
  Status : String
  Cost : Rat
  Error : String
  deriving DecidableEq, Repr

/-- One per-recipient entry inside a status-response group
(anonymous struct inside `StatResponse.Data[].Statuses` in the Go source). -/
structure StatEntry where
  MsID : String
  Status : String
  Date : String
  UserDeliveryDate : String
  PartCount : Int
  IsViber : Bool
  TrafficPatternType : String
  Cost : Rat
  deriving DecidableEq, Repr

/-- One per-messageID group inside `StatResponse.Data`. -/
structure StatGroup where
  MessageID : Int
  Statuses : List StatEntry
  deriving DecidableEq, Repr

/-- Go struct `StatResponse`: the decoded API response for a status check. -/
structure StatResponse where
  Code : Int
  Description : String
  ValidationErrors : List String
  Data : List StatGroup
  deriving DecidableEq, Repr

/-- One entry of `SendResponse.Data.SubmitResults`. -/
structure SubmitResult where
  MsID : String
  MessageID : Int
  Code : String
  deriving DecidableEq, Repr

/-- Go struct `SendResponse`: the decoded API response for sending messages.
The Go `Data` wrapper struct holds only `SubmitResults`; we inline it. -/
structure SendResponse where
  Status : Int
  Description : String
  ValidationErrors : List String
  SubmitResults : List SubmitResult
  deriving DecidableEq, Repr

/-- Go struct `SubmitMsg`: a single message to send.  `SendError` and `MessageID`
are populated by `SendSMS` from the gateway response. -/
structure SubmitMsg where
  MsID : String
  Message : String
  SendError : Bool
  MessageID : Int
  deriving DecidableEq, Repr

/-- Go struct `SubmitBatch`: an ordered batch of messages plus a naming label. -/
structure SubmitBatch where
  Submits : List SubmitMsg
  Naming : String
  deriving DecidableEq, Repr

/-- What reading/decoding the HTTP response body produced: a read failure
(`io.ReadAll` error), or a body that either fails JSON decoding (`none`)
or decodes to a value of the expected response type. -/
inductive BodyOutcome (ρ : Type) where
  | readFail (msg : String)
  | body (decoded : Option ρ)
  deriving DecidableEq

/-- What the HTTP transport produced: a `client.Do` failure, or a response
with an HTTP status code and a body outcome.  This abstracts the network;
everything after it is embedded from the Go source. -/
inductive NetOutcome (ρ : Type) where
  | doFail (msg : String)
  | resp (statusCode : Int) (bodyOut : BodyOutcome ρ)
  deriving DecidableEq

/-- The inner loop of `SendSMS` for one submit result `res`
(`mts.go` lines 134–142): walk the batch elements in order; at the first
element whose `MsID` equals `res.MsID`, write `res.MessageID` into
`MessageID`, set `SendError` to `true` if `res.Code != "OK"`, and stop
(`break`).  Elements after the first match, and all elements when there is
no match, are untouched. -/
def applySubmitResult : List SubmitMsg → SubmitResult → List SubmitMsg
  | [], _ => []
  | m :: rest, res =>
    if m.MsID = res.MsID then
      { m with
        MessageID := res.MessageID,
        SendError := if res.Code ≠ "OK" then true else m.SendError } :: rest
    else
      m :: applySubmitResult rest res

/-- The outer reconciliation loop of `SendSMS` (`mts.go` lines 131–143):
apply each submit result of the response, in response order, to the batch. -/
def applySubmitResults (submits : List SubmitMsg) (results : List SubmitResult) :
    List SubmitMsg :=
  results.foldl applySubmitResult submits

/-- The per-element write-back performed by the inner loop of `SendSMS` on
the first matching batch element: `MessageID` is overwritten with the
result's messageID, and `SendError` is set to `true` when the result's
code differs from `"OK"` (otherwise left as it was). -/
def updateFromResult (m : SubmitMsg) (res : SubmitResult) : SubmitMsg :=
  { m with
    MessageID := res.MessageID,
    SendError := if res.Code ≠ "OK" then true else m.SendError }

/-- Index of the first batch element whose `MsID` equals `msid`
(the element the inner loop of `SendSMS` stops at), `none` if there is
no match. -/
def firstMatchIdx : List SubmitMsg → String → Option Nat
  | [], _ => none
  | m :: rest, msid =>
    if m.MsID = msid then some 0 else (firstMatchIdx rest msid).map (· + 1)

/-- Model of `SendSMS` (`mts.go` lines 89–151), after abstracting the HTTP call into
`net`.  Returns the (possibly mutated) batch and the error outcome.
Error messages follow the Go `fmt.Errorf` format strings; the dynamic
`%v` error detail of `io.ReadAll`/`json.Unmarshal` failures is abstracted
by the carried message. -/
def SendSMS (batch : SubmitBatch) (token : String)
    (net : NetOutcome SendResponse) : SubmitBatch × Except String Unit :=
  match net with
  | .doFail m => (batch, .error ("client.Do(): " ++ m))
  | .resp statusCode bodyOut =>
    if statusCode ≠ 200 then
      (batch, .error ("http status: " ++ toString statusCode ++ " with token: " ++ token))
    else
      match bodyOut with
      | .readFail m => (batch, .error ("io.ReadAll(): " ++ m))
      | .body none => (batch, .error "json.Unmarshal()")
      | .body (some respStruct) =>
        let batch' : SubmitBatch :=
          { batch with Submits := applySubmitResults batch.Submits respStruct.SubmitResults }
        if respStruct.Status ≠ 0 then
          (batch', .error ("error: " ++ respStruct.Description))
        else
          (batch', .ok ())

/-- The `MessageStatus` record built by the flattening loop of
`GetSMSStatuses` for one status entry: `MessageID` is `strconv.Itoa` of
the group's own messageID, and `Error` stays the Go zero value `""`. -/
def mkMessageStatus (groupMessageID : Int) (stRes : StatEntry) : MessageStatus :=
  { MessageID := toString groupMessageID,
    MsID := stRes.MsID,
    Status := stRes.Status,
    Cost := stRes.Cost,
    Error := "" }

/-- The flattening loop of `GetSMSStatuses` (`mts.go` lines 204–215):
nested iteration over groups and their status entries, appending one
`MessageStatus` per entry. -/
def flattenStatuses (data : List StatGroup) : List MessageStatus :=
  data.foldl
    (fun allStatuses dataItem =>
      dataItem.Statuses.foldl
        (fun acc stRes => acc ++ [mkMessageStatus dataItem.MessageID stRes])
        allStatuses)
    []

/-- Model of `GetSMSStatuses` (`mts.go` lines 153–218), after abstracting the HTTP
call into `net`.  An empty identifier list returns `[]` before the network
is consulted, so the result then does not depend on `net`. -/
def GetSMSStatuses (messageIDs : List Int) (token : String)
    (net : NetOutcome StatResponse) : Except String (List MessageStatus) :=
  if messageIDs.length = 0 then .ok []
  else
    match net with
    | .doFail m => .error ("client.Do(): " ++ m)
    | .resp statusCode bodyOut =>
      if statusCode ≠ 200 then
        .error ("http status: " ++ toString statusCode)
      else
        match bodyOut with
        | .readFail m => .error ("io.ReadAll(): " ++ m)
        | .body none => .error "json.Unmarshal()"
        | .body (some respStruct) =>
          if respStruct.Code ≠ 0 then
            .error ("API error: " ++ respStruct.Description)
          else
            .ok (flattenStatuses respStruct.Data)

/-- Model of `GetSMSStatus` (`mts.go` lines 220–229): query a singleton identifier
list; empty flattened result fails with a not-found error naming the
identifier, otherwise the first element is returned. -/
def GetSMSStatus (messageID : Int) (token : String)
    (net : NetOutcome StatResponse) : Except String MessageStatus :=
  match GetSMSStatuses [messageID] token net with
  | .error e => .error e
  | .ok statuses =>
    match statuses with
    | [] => .error ("no status found for message ID " ++ toString messageID)
    | s :: _ => .ok s

/-- Predicate `IsFinalStatus` (`mts.go` lines 232–239). -/
def IsFinalStatus (status : String) : Bool :=
  if status = StatusDelivered ∨ status = StatusNotDelivered ∨ status = StatusNotSent then
    true
  else
    false

/-- Predicate `IsDeliveredStatus` (`mts.go` lines 242–244). -/
def IsDeliveredStatus (status : String) : Bool :=
  status = StatusDelivered

/-- Predicate `IsFailedStatus` (`mts.go` lines 247–249). -/
def IsFailedStatus (status : String) : Bool :=
  status = StatusNotDelivered || status = StatusNotSent

/-! ### Reconciliation lemmas -/

/-- When no batch element matches the result's `MsID`, the inner loop of
`SendSMS` leaves the batch unchanged. -/
theorem applySubmitResult_of_no_match (res : SubmitResult) :
    ∀ l : List SubmitMsg, firstMatchIdx l res.MsID = none →
      applySubmitResult l res = l := by
  intro l
  induction l with
  | nil => intro _; rfl
  | cons m rest ih =>
    intro h
    by_cases hm : m.MsID = res.MsID
    · simp [firstMatchIdx, hm] at h
    · simp only [firstMatchIdx, if_neg hm, Option.map_eq_none'] at h
      simp [applySubmitResult, hm, ih h]

/-- When the first match is at index `i`, the inner loop of `SendSMS`
rewrites exactly the element at `i` using `updateFromResult` and leaves
every other element in place. -/
theorem applySubmitResult_of_first_match (res : SubmitResult) :
    ∀ (l : List SubmitMsg) (i : Nat) (h : i < l.length),
      firstMatchIdx l res.MsID = some i →
      applySubmitResult l res = l.set i (updateFromResult (l.get ⟨i, h⟩) res) := by
  intro l
  induction l with
  | nil => intro i h; exact absurd h (Nat.not_lt_zero i)
  | cons m rest ih =>
    intro i h hfm
    by_cases hm : m.MsID = res.MsID
    · simp only [firstMatchIdx, if_pos hm, Option.some.injEq] at hfm
      subst hfm
      simp [applySubmitResult, hm, updateFromResult, List.set]
    · simp only [firstMatchIdx, if_neg hm, Option.map_eq_some'] at hfm
      obtain ⟨j, hj, hji⟩ := hfm
      subst hji
      have hjlt : j < rest.length := Nat.lt_of_succ_lt_succ h
      simp [applySubmitResult, hm, List.set, ih j hjlt hj]

/-- The inner loop leaves every index other than the first match untouched. -/
theorem applySubmitResult_get?_frame (res : SubmitResult) :
    ∀ (l : List SubmitMsg) (i : Nat),
      firstMatchIdx l res.MsID ≠ some i →
      (applySubmitResult l res).get? i = l.get? i := by
  intro l
  induction l with
  | nil => intro i _; rfl
  | cons m rest ih =>
    intro i hne
    by_cases hm : m.MsID = res.MsID
    · have hi : i ≠ 0 := by
        intro h0
        exact hne (by simp [firstMatchIdx, hm, h0])
      cases i with
      | zero => exact absurd rfl hi
      | succ j => simp [applySubmitResult, hm]
    · cases i with
      | zero => simp [applySubmitResult, hm]
      | succ j =>
        have hj : firstMatchIdx rest res.MsID ≠ some j := by
          intro hsome
          exact hne (by simp [firstMatchIdx, hm, hsome])
        have hrec := ih j hj
        simp only [List.get?_eq_getElem?] at hrec
        simp [applySubmitResult, hm, hrec]

/-- The inner loop never changes any element's `MsID`. -/
theorem applySubmitResult_map_msid (res : SubmitResult) :
    ∀ l : List SubmitMsg,
      (applySubmitResult l res).map (fun m => m.MsID) = l.map (fun m => m.MsID) := by
  intro l
  induction l with
  | nil => rfl
  | cons m rest ih =>
    by_cases hm : m.MsID = res.MsID
    · simp [applySubmitResult, hm]
    · simp [applySubmitResult, hm, ih]

/-- The inner loop never changes any element's `Message`. -/
theorem applySubmitResult_map_message (res : SubmitResult) :
    ∀ l : List SubmitMsg,
      (applySubmitResult l res).map (fun m => m.Message) = l.map (fun m => m.Message) := by
  intro l
  induction l with
  | nil => rfl
  | cons m rest ih =>
    by_cases hm : m.MsID = res.MsID
    · simp [applySubmitResult, hm]
    · simp [applySubmitResult, hm, ih]

/-- The inner loop preserves the batch length. -/
theorem applySubmitResult_length (res : SubmitResult) (l : List SubmitMsg) :
    (applySubmitResult l res).length = l.length := by
  have := congrArg List.length (applySubmitResult_map_msid res l)
  simpa using this

/-- First-match indices are computed from `MsID` fields only, which the
inner loop preserves, so they are invariant under it. -/
theorem firstMatchIdx_applySubmitResult (res : SubmitResult) (x : String) :
    ∀ l : List SubmitMsg,
      firstMatchIdx (applySubmitResult l res) x = firstMatchIdx l x := by
  intro l
  induction l with
  | nil => rfl
  | cons m rest ih =>
    by_cases hm : m.MsID = res.MsID
    · simp [applySubmitResult, hm, firstMatchIdx, updateFromResult]
    · simp [applySubmitResult, hm, firstMatchIdx, ih]

/-- The inner loop never turns a `true` `SendError` flag into `false`. -/
theorem applySubmitResult_sendError_mono (res : SubmitResult) :
    ∀ (l : List SubmitMsg) (i : Nat),
      (l.get? i).map (fun m => m.SendError) = some true →
      ((applySubmitResult l res).get? i).map (fun m => m.SendError) = some true := by
  intro l
  induction l with
  | nil => intro i h; simpa using h
  | cons m rest ih =>
    intro i h
    by_cases hm : m.MsID = res.MsID
    · cases i with
      | zero =>
        simp only [List.get?] at h
        simp only [applySubmitResult, if_pos hm, List.get?, Option.map_some']
        simp only [Option.map_some', Option.some.injEq] at h
        by_cases hc : res.Code ≠ "OK" <;> simp [hc, h]
      | succ j => simpa [applySubmitResult, hm] using h
    · cases i with
      | zero => simpa [applySubmitResult, hm] using h
      | succ j =>
        simp only [List.get?] at h
        simpa [applySubmitResult, hm] using ih j h

/-- Fold version of `applySubmitResult_map_msid`. -/
theorem applySubmitResults_map_msid :
    ∀ (results : List SubmitResult) (l : List SubmitMsg),
      (applySubmitResults l results).map (fun m => m.MsID) = l.map (fun m => m.MsID) := by
  intro results
  induction results with
  | nil => intro l; rfl
  | cons r rs ih =>
    intro l
    simp only [applySubmitResults, List.foldl_cons]
    calc (applySubmitResults (applySubmitResult l r) rs).map (fun m => m.MsID)
        = (applySubmitResult l r).map (fun m => m.MsID) := ih (applySubmitResult l r)
      _ = l.map (fun m => m.MsID) := applySubmitResult_map_msid r l

/-- Fold version of `applySubmitResult_map_message`. -/
theorem applySubmitResults_map_message :
    ∀ (results : List SubmitResult) (l : List SubmitMsg),
      (applySubmitResults l results).map (fun m => m.Message) = l.map (fun m => m.Message) := by
  intro results
  induction results with
  | nil => intro l; rfl
  | cons r rs ih =>
    intro l
    simp only [applySubmitResults, List.foldl_cons]
    calc (applySubmitResults (applySubmitResult l r) rs).map (fun m => m.Message)
        = (applySubmitResult l r).map (fun m => m.Message) := ih (applySubmitResult l r)
      _ = l.map (fun m => m.Message) := applySubmitResult_map_message r l

/-- The reconciliation loop preserves the batch length. -/
theorem applySubmitResults_length (results : List SubmitResult) (l : List SubmitMsg) :
    (applySubmitResults l results).length = l.length := by
  have := congrArg List.length (applySubmitResults_map_msid results l)
  simpa using this

/-- An index that is the first match of no result entry is untouched by the
whole reconciliation loop. -/
theorem applySubmitResults_get?_frame :
    ∀ (results : List SubmitResult) (l : List SubmitMsg) (i : Nat),
      (∀ r ∈ results, firstMatchIdx l r.MsID ≠ some i) →
      (applySubmitResults l results).get? i = l.get? i := by
  intro results
  induction results with
  | nil => intro l i _; rfl
  | cons r rs ih =>
    intro l i hall
    simp only [applySubmitResults, List.foldl_cons]
    have hstep : (applySubmitResult l r).get? i = l.get? i :=
      applySubmitResult_get?_frame r l i (hall r (List.mem_cons_self r rs))
    have hrest : ∀ r2 ∈ rs, firstMatchIdx (applySubmitResult l r) r2.MsID ≠ some i := by
      intro r2 hr2
      rw [firstMatchIdx_applySubmitResult]
      exact hall r2 (List.mem_cons_of_mem r hr2)
    calc (applySubmitResults (applySubmitResult l r) rs).get? i
        = (applySubmitResult l r).get? i := ih (applySubmitResult l r) i hrest
      _ = l.get? i := hstep

/-- The whole reconciliation loop never clears a `SendError` flag. -/
theorem applySubmitResults_sendError_mono :
    ∀ (results : List SubmitResult) (l : List SubmitMsg) (i : Nat),
      (l.get? i).map (fun m => m.SendError) = some true →
      ((applySubmitResults l results).get? i).map (fun m => m.SendError) = some true := by
  intro results
  induction results with
  | nil => intro l i h; exact h
  | cons r rs ih =>
    intro l i h
    simp only [applySubmitResults, List.foldl_cons]
    exact ih (applySubmitResult l r) i (applySubmitResult_sendError_mono r l i h)

/-- C4: `IsFinalStatus` is true exactly on `Delivered`, `NotDelivered`,
`NotSent`; `IsDeliveredStatus` exactly on `Delivered`; `IsFailedStatus`
exactly on `NotDelivered` and `NotSent`; hence every string outside the
enumeration (including `Pending`, `Sent`, `Sending`) makes all three
false. -/
theorem final_delivered_failed_classification (s : String) :
    (IsFinalStatus s = true ↔ s = "Delivered" ∨ s = "NotDelivered" ∨ s = "NotSent") ∧
    (IsDeliveredStatus s = true ↔ s = "Delivered") ∧
    (IsFailedStatus s = true ↔ s = "NotDelivered" ∨ s = "NotSent") ∧
    (s ≠ "Delivered" → s ≠ "NotDelivered" → s ≠ "NotSent" →
      IsFinalStatus s = false ∧ IsDeliveredStatus s = false ∧ IsFailedStatus s = false) := by
  refine ⟨?_, ?_, ?_, ?_⟩
  · simp [IsFinalStatus, StatusDelivered, StatusNotDelivered, StatusNotSent]
  · simp [IsDeliveredStatus, StatusDelivered]
  · simp [IsFailedStatus, StatusNotDelivered, StatusNotSent]
  · intro h1 h2 h3
    refine ⟨?_, ?_, ?_⟩
    · simp [IsFinalStatus, StatusDelivered, StatusNotDelivered, StatusNotSent, h1, h2, h3]
    · simp [IsDeliveredStatus, StatusDelivered, h1]
    · simp [IsFailedStatus, StatusNotDelivered, StatusNotSent, h2, h3]

/-- Witness for C4: the unrecognized string `"BogusStatus"` is outside the
enumeration, so all three predicates return false on it. -/
theorem final_delivered_failed_classification_witness :
    IsFinalStatus "BogusStatus" = false ∧
    IsDeliveredStatus "BogusStatus" = false ∧
    IsFailedStatus "BogusStatus" = false :=
  (final_delivered_failed_classification "BogusStatus").2.2.2
    (by decide) (by decide) (by decide)

/-- C6: for every token and every transport behaviour, `GetSMSStatuses` on
an empty identifier list returns the empty list with no error; since the
result is the same for all `net`, the transport is never consulted. -/
theorem getSMSStatuses_empty_input (token : String) (net : NetOutcome StatResponse) :
    GetSMSStatuses [] token net = .ok [] := by
  simp [GetSMSStatuses]

/-! ### Flattening lemmas -/

/-- A fold that appends one image per element is an append of the map. -/
theorem foldl_append_singleton {α β : Type} (f : α → β) :
    ∀ (l : List α) (acc : List β),
      l.foldl (fun a s => a ++ [f s]) acc = acc ++ l.map f := by
  intro l
  induction l with
  | nil => intro acc; simp
  | cons x xs ih =>
    intro acc
    simp only [List.foldl_cons, List.map_cons, ih]
    simp

/-- The nested flattening loop, generalized over its accumulator. -/
theorem flattenStatuses_loop (data : List StatGroup) :
    ∀ acc : List MessageStatus,
      data.foldl
        (fun allStatuses dataItem =>
          dataItem.Statuses.foldl
            (fun acc2 stRes => acc2 ++ [mkMessageStatus dataItem.MessageID stRes])
            allStatuses)
        acc
      = acc ++ data.flatMap (fun d => d.Statuses.map (mkMessageStatus d.MessageID)) := by
  induction data with
  | nil => intro acc; simp
  | cons d ds ih =>
    intro acc
    simp only [List.foldl_cons, List.flatMap_cons]
    rw [foldl_append_singleton, ih]
    simp [List.append_assoc]

/-- Lemma: `flattenStatuses` computes the flat map of groups in group order and
within-group entry order. -/
theorem flattenStatuses_eq_bind (data : List StatGroup) :
    flattenStatuses data = data.flatMap (fun d => d.Statuses.map (mkMessageStatus d.MessageID)) := by
  simpa using flattenStatuses_loop data []

/-- The flattened list has one element per status entry, summed over all
groups. -/
theorem flattenStatuses_length (data : List StatGroup) :
    (flattenStatuses data).length = (data.map (fun d => d.Statuses.length)).sum := by
  rw [flattenStatuses_eq_bind]
  induction data with
  | nil => rfl
  | cons d ds ih => simp [ih]

/-! ### Claim theorems -/

/-- C1: for one submit-result entry, `SendSMS`'s reconciliation writes the
assigned messageID into the first batch element (in array order) whose
`MsID` equals the entry's `MsID` and sets that element's `SendError` flag
to true exactly when the entry's code is not `"OK"` (via
`updateFromResult`); when no element matches, the batch is unchanged, and
any index that is the first match of no entry is left unchanged by the
whole loop; on a well-formed response, `SendSMS` applies exactly this loop
to the caller's batch. -/
theorem sendSMS_submit_result_write_back (res : SubmitResult) (submits : List SubmitMsg) :
    (firstMatchIdx submits res.MsID = none → applySubmitResult submits res = submits) ∧
    (∀ (i : Nat) (h : i < submits.length),
       firstMatchIdx submits res.MsID = some i →
       applySubmitResult submits res =
         submits.set i (updateFromResult (submits.get ⟨i, h⟩) res)) ∧
    (∀ (results : List SubmitResult) (i : Nat),
       (∀ r ∈ results, firstMatchIdx submits r.MsID ≠ some i) →
       (applySubmitResults submits results).get? i = submits.get? i) ∧
    (∀ (batch : SubmitBatch) (token : String) (resp : SendResponse),
       (SendSMS batch token (.resp 200 (.body (some resp)))).1.Submits =
         applySubmitResults batch.Submits resp.SubmitResults) := by
  refine ⟨applySubmitResult_of_no_match res submits,
          applySubmitResult_of_first_match res submits,
          fun results i h => applySubmitResults_get?_frame results submits i h, ?_⟩
  intro batch token resp
  by_cases hs : resp.Status ≠ 0 <;> simp [SendSMS, hs]

/-- Witness for C1 at concrete inputs: an unmatched entry leaves the batch
unchanged; an entry with a non-`"OK"` code updates the first matching
element; an index matched by no entry keeps its element across the whole
loop. -/
theorem sendSMS_submit_result_write_back_witness :
    applySubmitResult [⟨"79001", "hi", false, 0⟩] ⟨"79099", 7, "OK"⟩ =
      [⟨"79001", "hi", false, 0⟩] ∧
    applySubmitResult [⟨"79001", "hi", false, 0⟩, ⟨"79002", "yo", false, 0⟩]
        ⟨"79002", 7, "ERR"⟩ =
      [⟨"79001", "hi", false, 0⟩, ⟨"79002", "yo", true, 7⟩] ∧
    (applySubmitResults [⟨"79001", "hi", false, 0⟩] [⟨"79099", 7, "OK"⟩]).get? 0 =
      some ⟨"79001", "hi", false, 0⟩ := by
  refine ⟨?_, ?_, ?_⟩
  · exact (sendSMS_submit_result_write_back ⟨"79099", 7, "OK"⟩
      [⟨"79001", "hi", false, 0⟩]).1 (by decide)
  · have h := (sendSMS_submit_result_write_back ⟨"79002", 7, "ERR"⟩
      [⟨"79001", "hi", false, 0⟩, ⟨"79002", "yo", false, 0⟩]).2.1 1 (by decide) (by decide)
    rw [h]; rfl
  · have h := (sendSMS_submit_result_write_back ⟨"79099", 7, "OK"⟩
      [⟨"79001", "hi", false, 0⟩]).2.2.1 [⟨"79099", 7, "OK"⟩] 0 (by decide)
    rw [h]; rfl

/-- C2: on a non-empty identifier list and a decoded response with
top-level code 0, `GetSMSStatuses` returns exactly the flat map of the
response's groups, in group order and within-group entry order, each
record built by `mkMessageStatus` from the group's own messageID (its
decimal string form) and the entry's msid, status and cost; its length is
the total number of entries over all groups. -/
theorem getSMSStatuses_flatten (messageIDs : List Int) (token : String)
    (resp : StatResponse) (hne : messageIDs ≠ []) (hcode : resp.Code = 0) :
    GetSMSStatuses messageIDs token (.resp 200 (.body (some resp))) =
      .ok (resp.Data.flatMap (fun d => d.Statuses.map (mkMessageStatus d.MessageID))) ∧
    (flattenStatuses resp.Data).length =
      (resp.Data.map (fun d => d.Statuses.length)).sum := by
  have hlen : ¬ messageIDs.length = 0 := by
    simpa [List.length_eq_zero] using hne
  refine ⟨?_, flattenStatuses_length resp.Data⟩
  simp [GetSMSStatuses, hlen, hcode, flattenStatuses_eq_bind]

/-- Witness for C2 at the concrete response from the repository's test:
one group `31227513` with one `NotSent` entry. -/
theorem getSMSStatuses_flatten_witness :
    GetSMSStatuses [31227513] "test-token"
        (.resp 200 (.body (some
          ⟨0, "Success", [],
           [⟨31227513,
             [⟨"9222695251", "NotSent", "2025-12-09T05:19:02Z", "", 1, false, "Unknown", 0⟩]⟩]⟩))) =
      .ok [⟨"31227513", "9222695251", "NotSent", 0, ""⟩] ∧
    (flattenStatuses
        [⟨31227513,
          [⟨"9222695251", "NotSent", "2025-12-09T05:19:02Z", "", 1, false, "Unknown", 0⟩]⟩]).length
      = 1 := by
  have h := getSMSStatuses_flatten [31227513] "test-token"
    ⟨0, "Success", [],
     [⟨31227513,
       [⟨"9222695251", "NotSent", "2025-12-09T05:19:02Z", "", 1, false, "Unknown", 0⟩]⟩]⟩
    (by decide) (by decide)
  refine ⟨?_, ?_⟩
  · rw [h.1]; rfl
  · rw [h.2]; rfl

/-- C3: on a decoded response with non-zero top-level status, `SendSMS`
returns the batch already reconciled through `applySubmitResults` together
with the error `"error: " ++ description`; in particular status 1 with
description `"Invalid token"` yields the error message exactly
`"error: Invalid token"` while the mutated batch stays visible. -/
theorem sendSMS_api_error_after_write_back (batch : SubmitBatch) (token : String)
    (resp : SendResponse) (h : resp.Status ≠ 0) :
    SendSMS batch token (.resp 200 (.body (some resp))) =
      ({ batch with Submits := applySubmitResults batch.Submits resp.SubmitResults },
        .error ("error: " ++ resp.Description)) ∧
    (SendSMS batch token (.resp 200 (.body (some
        { Status := 1, Description := "Invalid token",
          ValidationErrors := resp.ValidationErrors,
          SubmitResults := resp.SubmitResults })))).2 =
      .error "error: Invalid token" := by
  constructor
  · simp [SendSMS, h]
  · simp [SendSMS]

/-- Witness for C3 at the repository's failure test: a one-element batch,
status 1, description `"Invalid token"`, no submit results. -/
theorem sendSMS_api_error_after_write_back_witness :
    SendSMS ⟨[⟨"79001234567", "Test", false, 0⟩], ""⟩ "invalid-token"
        (.resp 200 (.body (some ⟨1, "Invalid token", [], []⟩))) =
      (⟨[⟨"79001234567", "Test", false, 0⟩], ""⟩, .error "error: Invalid token") := by
  have h := (sendSMS_api_error_after_write_back
    ⟨[⟨"79001234567", "Test", false, 0⟩], ""⟩ "invalid-token"
    ⟨1, "Invalid token", [], []⟩ (by decide)).1
  rw [h]; rfl

/-- C5: `GetSMSStatus` queries the singleton identifier list and: forwards
any error of the status query; fails with the not-found error naming the
identifier when the flattened result list is empty; otherwise returns the
first element. -/
theorem getSMSStatus_singleton_lookup (messageID : Int) (token : String)
    (net : NetOutcome StatResponse) :
    (∀ e, GetSMSStatuses [messageID] token net = .error e →
       GetSMSStatus messageID token net = .error e) ∧
    (GetSMSStatuses [messageID] token net = .ok [] →
       GetSMSStatus messageID token net =
         .error ("no status found for message ID " ++ toString messageID)) ∧
    (∀ s rest, GetSMSStatuses [messageID] token net = .ok (s :: rest) →
       GetSMSStatus messageID token net = .ok s) := by
  refine ⟨?_, ?_, ?_⟩
  · intro e h; simp [GetSMSStatus, h]
  · intro h; simp [GetSMSStatus, h]
  · intro s rest h; simp [GetSMSStatus, h]

/-- Witness for C5: querying identifier 9999 against a response whose
group 9999 lists zero statuses fails with the not-found error. -/
theorem getSMSStatus_singleton_lookup_witness :
    GetSMSStatus 9999 "token"
        (.resp 200 (.body (some ⟨0, "Success", [], [⟨9999, []⟩]⟩))) =
      .error "no status found for message ID 9999" := by
  have h := (getSMSStatus_singleton_lookup 9999 "token"
    (.resp 200 (.body (some ⟨0, "Success", [], [⟨9999, []⟩]⟩)))).2.1 (by rfl)
  rw [h]; rfl

/-- C7: for a non-empty identifier list and a decoded response with
non-zero top-level code, `GetSMSStatuses` fails with the API error
carrying the gateway description and returns no statuses. -/
theorem getSMSStatuses_api_error (messageIDs : List Int) (token : String)
    (resp : StatResponse) (hne : messageIDs ≠ []) (hcode : resp.Code ≠ 0) :
    GetSMSStatuses messageIDs token (.resp 200 (.body (some resp))) =
      .error ("API error: " ++ resp.Description) := by
  have hlen : ¬ messageIDs.length = 0 := by
    simpa [List.length_eq_zero] using hne
  simp [GetSMSStatuses, hlen, hcode]

/-- Witness for C7: identifier list `[1]`, response code 1 with
description `"bad"`. -/
theorem getSMSStatuses_api_error_witness :
    GetSMSStatuses [1] "token" (.resp 200 (.body (some ⟨1, "bad", [], []⟩))) =
      .error "API error: bad" := by
  have h := getSMSStatuses_api_error [1] "token" ⟨1, "bad", [], []⟩
    (by decide) (by decide)
  rw [h]; rfl

/-- C8: whatever the transport outcome, `SendSMS` keeps the naming label,
the number of batch elements, their order, and every element's `MsID` and
`Message`; only `MessageID` and `SendError` of matched elements can
change. -/
theorem sendSMS_frame (batch : SubmitBatch) (token : String)
    (net : NetOutcome SendResponse) :
    ((SendSMS batch token net).1).Naming = batch.Naming ∧
    ((SendSMS batch token net).1).Submits.length = batch.Submits.length ∧
    ((SendSMS batch token net).1).Submits.map (fun m => m.MsID) =
      batch.Submits.map (fun m => m.MsID) ∧
    ((SendSMS batch token net).1).Submits.map (fun m => m.Message) =
      batch.Submits.map (fun m => m.Message) := by
  cases net with
  | doFail m => simp [SendSMS]
  | resp statusCode bodyOut =>
    by_cases hc : statusCode ≠ 200
    · simp [SendSMS, hc]
    · cases bodyOut with
      | readFail m => simp [SendSMS, hc]
      | body decoded =>
        cases decoded with
        | none => simp [SendSMS, hc]
        | some respStruct =>
          by_cases hs : respStruct.Status ≠ 0 <;>
            simp [SendSMS, hc, hs, applySubmitResults_length,
              applySubmitResults_map_msid, applySubmitResults_map_message]

/-- C9: every `SendSMS` error path that precedes a successful decode — a
transport failure, a non-200 HTTP status, a body-read failure, a malformed
JSON body — returns the caller's batch completely unchanged, together with
an error. -/
theorem sendSMS_pre_decode_errors_preserve_batch (batch : SubmitBatch) (token : String) :
    (∀ msg, (SendSMS batch token (.doFail msg)).1 = batch ∧
       ∃ e, (SendSMS batch token (.doFail msg)).2 = .error e) ∧
    (∀ (statusCode : Int) (bodyOut : BodyOutcome SendResponse), statusCode ≠ 200 →
       (SendSMS batch token (.resp statusCode bodyOut)).1 = batch ∧
       ∃ e, (SendSMS batch token (.resp statusCode bodyOut)).2 = .error e) ∧
    (∀ msg, (SendSMS batch token (.resp 200 (.readFail msg))).1 = batch ∧
       ∃ e, (SendSMS batch token (.resp 200 (.readFail msg))).2 = .error e) ∧
    ((SendSMS batch token (.resp 200 (.body none))).1 = batch ∧
       ∃ e, (SendSMS batch token (.resp 200 (.body none))).2 = .error e) := by
  refine ⟨?_, ?_, ?_, ?_⟩
  · intro msg; exact ⟨rfl, _, rfl⟩
  · intro statusCode bodyOut hc
    simp [SendSMS, hc]
  · intro msg; refine ⟨?_, ?_⟩ <;> simp [SendSMS]
  · refine ⟨?_, ?_⟩ <;> simp [SendSMS]

/-- Witness for C9: a concrete batch survives a 500 HTTP status (and the
other pre-decode failures) unchanged. -/
theorem sendSMS_pre_decode_errors_preserve_batch_witness :
    (SendSMS ⟨[⟨"79001", "hi", false, 0⟩], "n"⟩ "token"
        (.resp 500 (.body (some ⟨0, "", [], [⟨"79001", 7, "OK"⟩]⟩)))).1 =
      ⟨[⟨"79001", "hi", false, 0⟩], "n"⟩ := by
  exact ((sendSMS_pre_decode_errors_preserve_batch
    ⟨[⟨"79001", "hi", false, 0⟩], "n"⟩ "token").2.1 500
    (.body (some ⟨0, "", [], [⟨"79001", 7, "OK"⟩]⟩)) (by decide)).1

/-- C10: `SendSMS` never clears a `SendError` flag: an element whose flag
is true before the call still has it true after, whatever the response —
the reconciliation loop only ever sets the flag to true. -/
theorem sendSMS_sendError_monotone (batch : SubmitBatch) (token : String)
    (net : NetOutcome SendResponse) (i : Nat)
    (h : (batch.Submits.get? i).map (fun m => m.SendError) = some true) :
    (((SendSMS batch token net).1).Submits.get? i).map (fun m => m.SendError) = some true := by
  cases net with
  | doFail m => simpa [SendSMS] using h
  | resp statusCode bodyOut =>
    by_cases hc : statusCode ≠ 200
    · simpa [SendSMS, hc] using h
    · cases bodyOut with
      | readFail m => simpa [SendSMS, hc] using h
      | body decoded =>
        cases decoded with
        | none => simpa [SendSMS, hc] using h
        | some respStruct =>
          have hmono := applySubmitResults_sendError_mono
            respStruct.SubmitResults batch.Submits i h
          by_cases hs : respStruct.Status ≠ 0 <;>
            simpa [SendSMS, hc, hs] using hmono

/-- Witness for C10: an element entering with `SendError = true` keeps it
even when the gateway answers `"OK"` for that recipient. -/
theorem sendSMS_sendError_monotone_witness :
    (((SendSMS ⟨[⟨"79001", "hi", true, 0⟩], "n"⟩ "token"
        (.resp 200 (.body (some ⟨0, "Success", [], [⟨"79001", 5, "OK"⟩]⟩)))).1).Submits.get?
          0).map (fun m => m.SendError) = some true := by
  exact sendSMS_sendError_monotone ⟨[⟨"79001", "hi", true, 0⟩], "n"⟩ "token"
    (.resp 200 (.body (some ⟨0, "Success", [], [⟨"79001", 5, "OK"⟩]⟩))) 0 (by rfl)

end Smsmts
